import Mathlib

/-!
Verification development for the Ramzify repository (a YouTube-audio download
service).  The definitions below are a shallow embedding of `src/api/main.py`
(and the behaviourally identical `src/api/server.py`): the `/download` handler
`download_music`, the `/download/file/{filename}` handler `get_file`, and the
delayed-deletion task `cleanup_file`, together with the MD5-based filename
derivation `hashlib.md5(video_id.encode()).hexdigest()[:10] + "." + format`.

Machine integers are modelled as `Nat` with explicit reduction modulo `2^32`;
bytes are `Nat` values below 256; the filesystem (the `downloads` directory)
is a `Finset String` of filenames.
-/

namespace Ramzify

/-- 2^32, the modulus for 32-bit words in MD5. -/
def w32 : Nat := 4294967296

/-- 32-bit left rotation (operands assumed < 2^32, enforced by `% w32`). -/
def rotl32 (x s : Nat) : Nat :=
  (((x % w32) <<< s) % w32) ||| ((x % w32) >>> (32 - s))

/-- 32-bit bitwise complement. -/
def not32 (x : Nat) : Nat := x ^^^ 4294967295

/-- The 64 MD5 sine-derived round constants (RFC 1321). -/
def md5K : List Nat :=
  [0xd76aa478, 0xe8c7b756, 0x242070db, 0xc1bdceee,
   0xf57c0faf, 0x4787c62a, 0xa8304613, 0xfd469501,
   0x698098d8, 0x8b44f7af, 0xffff5bb1, 0x895cd7be,
   0x6b901122, 0xfd987193, 0xa679438e, 0x49b40821,
   0xf61e2562, 0xc040b340, 0x265e5a51, 0xe9b6c7aa,
   0xd62f105d, 0x02441453, 0xd8a1e681, 0xe7d3fbc8,
   0x21e1cde6, 0xc33707d6, 0xf4d50d87, 0x455a14ed,
   0xa9e3e905, 0xfcefa3f8, 0x676f02d9, 0x8d2a4c8a,
   0xfffa3942, 0x8771f681, 0x6d9d6122, 0xfde5380c,
   0xa4beea44, 0x4bdecfa9, 0xf6bb4b60, 0xbebfbc70,
   0x289b7ec6, 0xeaa127fa, 0xd4ef3085, 0x04881d05,
   0xd9d4d039, 0xe6db99e5, 0x1fa27cf8, 0xc4ac5665,
   0xf4292244, 0x432aff97, 0xab9423a7, 0xfc93a039,
   0x655b59c3, 0x8f0ccc92, 0xffeff47d, 0x85845dd1,
   0x6fa87e4f, 0xfe2ce6e0, 0xa3014314, 0x4e0811a1,
   0xf7537e82, 0xbd3af235, 0x2ad7d2bb, 0xeb86d391]

/-- The 64 MD5 per-round shift amounts (RFC 1321). -/
def md5S : List Nat :=
  [7, 12, 17, 22, 7, 12, 17, 22, 7, 12, 17, 22, 7, 12, 17, 22,
   5, 9, 14, 20, 5, 9, 14, 20, 5, 9, 14, 20, 5, 9, 14, 20,
   4, 11, 16, 23, 4, 11, 16, 23, 4, 11, 16, 23, 4, 11, 16, 23,
   6, 10, 15, 21, 6, 10, 15, 21, 6, 10, 15, 21, 6, 10, 15, 21]

/-- `n` little-endian bytes of `x`. -/
def leBytes : Nat → Nat → List Nat
  | 0, _ => []
  | n + 1, x => (x % 256) :: leBytes n (x / 256)

/-- The `g`-th 32-bit little-endian word of a 64-byte chunk. -/
def chunkWord (chunk : List Nat) (g : Nat) : Nat :=
  chunk.getD (4 * g) 0 + 256 * chunk.getD (4 * g + 1) 0 +
    65536 * chunk.getD (4 * g + 2) 0 + 16777216 * chunk.getD (4 * g + 3) 0

/-- The nonlinear mixing function and message index of MD5 round `i`. -/
def md5Mix (b c d i : Nat) : Nat × Nat :=
  if i < 16 then ((b &&& c) ||| (not32 b &&& d), i)
  else if i < 32 then ((d &&& b) ||| (not32 d &&& c), (5 * i + 1) % 16)
  else if i < 48 then (b ^^^ c ^^^ d, (3 * i + 5) % 16)
  else (c ^^^ (b ||| not32 d), (7 * i) % 16)

/-- One MD5 round applied to the running `(a, b, c, d)` register state. -/
def md5Round (chunk : List Nat) (st : Nat × Nat × Nat × Nat) (i : Nat) :
    Nat × Nat × Nat × Nat :=
  match st with
  | (a, b, c, d) =>
    let fg := md5Mix b c d i
    let tmp := (fg.1 + a + md5K.getD i 0 + chunkWord chunk fg.2) % w32
    (d, (b + rotl32 tmp (md5S.getD i 0)) % w32, b, c)

/-- Process one 64-byte chunk: 64 rounds, then add into the state mod 2^32. -/
def md5Chunk (st : Nat × Nat × Nat × Nat) (chunk : List Nat) :
    Nat × Nat × Nat × Nat :=
  match st, (List.range 64).foldl (md5Round chunk) st with
  | (a, b, c, d), (a', b', c', d') =>
    ((a + a') % w32, (b + b') % w32, (c + c') % w32, (d + d') % w32)

/-- Split a byte string into consecutive 64-byte chunks; the fuel argument
(any bound on the list length works) makes the recursion structural. -/
def chunksOf64 : Nat → List Nat → List (List Nat)
  | 0, _ => []
  | _, [] => []
  | fuel + 1, l => l.take 64 :: chunksOf64 fuel (l.drop 64)

/-- Fold `md5Chunk` over consecutive 64-byte chunks of the padded message. -/
def md5Chunks (st : Nat × Nat × Nat × Nat) (l : List Nat) :
    Nat × Nat × Nat × Nat :=
  (chunksOf64 l.length l).foldl md5Chunk st

/-- RFC 1321 padding: append `0x80`, zero-pad to 56 mod 64, then the 8-byte
little-endian bit length of the original message. -/
def md5Pad (msg : List Nat) : List Nat :=
  msg ++ 0x80 :: List.replicate ((119 - msg.length % 64) % 64) 0 ++
    leBytes 8 (8 * msg.length)

/-- The 16-byte MD5 digest of a byte string. -/
def md5Digest (msg : List Nat) : List Nat :=
  match md5Chunks (0x67452301, 0xefcdab89, 0x98badcfe, 0x10325476)
      (md5Pad msg) with
  | (a, b, c, d) => leBytes 4 a ++ leBytes 4 b ++ leBytes 4 c ++ leBytes 4 d

/-- Lower-case hexadecimal digit for a value below 16. -/
def hexDigit (n : Nat) : Char :=
  Char.ofNat (if n < 10 then 48 + n else 87 + n)

/-- Two lower-case hex digits of one byte. -/
def hexByte (b : Nat) : List Char := [hexDigit (b / 16 % 16), hexDigit (b % 16)]

/-- Lower-case hex rendering of a byte string. -/
def hexOfBytes (l : List Nat) : List Char :=
  l.foldr (fun b acc => hexByte b ++ acc) []

/-- `hashlib.md5(msg).hexdigest()` as a list of 32 hex characters. -/
def md5HexChars (msg : List Nat) : List Char := hexOfBytes (md5Digest msg)

/-- UTF-8 encoding of a single character (RFC 3629). -/
def utf8Char (c : Char) : List Nat :=
  let n := c.toNat
  if n < 128 then [n]
  else if n < 2048 then [192 + n / 64, 128 + n % 64]
  else if n < 65536 then [224 + n / 4096, 128 + n / 64 % 64, 128 + n % 64]
  else [240 + n / 262144, 128 + n / 4096 % 64, 128 + n / 64 % 64, 128 + n % 64]

/-- Python's `s.encode()`: UTF-8 bytes of a string. -/
def utf8Encode (s : String) : List Nat :=
  s.data.foldr (fun c acc => utf8Char c ++ acc) []

/-- `hashlib.md5(s.encode()).hexdigest()` as a Lean `String`. -/
def md5HexOfString (s : String) : String := ⟨md5HexChars (utf8Encode s)⟩

/-- `src/api/main.py:104`: `file_hash = hashlib.md5(request.video_id.encode()).hexdigest()[:10]`. -/
def file_hash (video_id : String) : List Char :=
  (md5HexChars (utf8Encode video_id)).take 10

/-- `src/api/main.py:105`: `output_filename = f"{file_hash}.{request.format}"`. -/
def outputFilename (video_id format : String) : String :=
  ⟨file_hash video_id ++ '.' :: format.data⟩

/-- `src/api/main.py:113`: the download URL returned for a filename. -/
def downloadUrl (filename : String) : String := "/download/file/" ++ filename

/-- Response of the `POST /download` endpoint: either the success JSON
(`status: "ready"` with filename and download URL, `src/api/main.py:110-114`
and `136-140`), or an `HTTPException` (`src/api/main.py:143`). -/
inductive DlResp where
  | ready (filename download_url : String)
  | httpError (status : Nat) (detail : String)
deriving DecidableEq

/-- Server state visible to the `/download` handler: the set of filenames in
the `downloads` directory, plus an instrumentation counter of how many times
`ydl.download` (the extraction executor) has been invoked. -/
structure ApiState where
  files : Finset String
  execCount : Nat
deriving DecidableEq

/-- `src/api/main.py:97-143` (`download_music`), with the outcome of the
external `ydl.download([video_url])` call modelled by the parameters
`execOk` (does yt-dlp succeed?) and `errMsg` (the exception text otherwise).
On a hit (`output_path.exists()`, line 109) the cached file is returned with
no executor invocation; otherwise yt-dlp runs (`execCount` increments): on
success the output file appears in the downloads directory and the handler
returns the ready JSON; on an exception the handler raises
`HTTPException(500, str(e))` and no output file is produced. -/
def download_music (video_id format : String) (execOk : Bool) (errMsg : String)
    (st : ApiState) : DlResp × ApiState :=
  if outputFilename video_id format ∈ st.files then
    (.ready (outputFilename video_id format)
      (downloadUrl (outputFilename video_id format)), st)
  else if execOk then
    (.ready (outputFilename video_id format)
      (downloadUrl (outputFilename video_id format)),
      { files := insert (outputFilename video_id format) st.files,
        execCount := st.execCount + 1 })
  else
    (.httpError 500 errMsg, { st with execCount := st.execCount + 1 })

/-- Response of the `GET /download/file/{filename}` endpoint:
a `FileResponse` with a path, media type and filename, or an
`HTTPException(404, "File not found")`. -/
inductive FileResp where
  | fileResponse (path media_type filename : String)
  | notFound (status : Nat) (detail : String)
deriving DecidableEq

/-- `src/api/main.py:146-158` (`get_file`; identical behaviour in
`src/api/server.py:159-171`): 404 when the file does not exist, otherwise a
direct `FileResponse` on the path with media type `"audio/mpeg"`. -/
def get_file (files : Finset String) (filename : String) : FileResp :=
  if filename ∈ files then .fileResponse filename "audio/mpeg" filename
  else .notFound 404 "File not found"

/-- The media type carried by a `GET /download/file` response, if any. -/
def mediaTypeOf : FileResp → Option String
  | .fileResponse _ m _ => some m
  | .notFound _ _ => none

/-- `src/api/main.py:190-197` (`cleanup_file`, after its `asyncio.sleep`):
`if file_path.exists(): file_path.unlink()` — delete the file if present,
otherwise do nothing.  The function consults nothing but existence. -/
def cleanup_file (files : Finset String) (filename : String) : Finset String :=
  if filename ∈ files then files.erase filename else files

/-! ### Interleaving model of two concurrent `/download` requests

`download_music` runs on an async event loop; `output_path.exists()`
(line 109) and the blocking `ydl.download` (line 131) are separate steps, so
two requests for the same `(video_id, format)` can interleave: both
existence checks may run before either download.  Each request is split
into its check step and its run step; the run step acts on the hit/miss
result its own check observed. -/

/-- Global state of two in-flight `/download` requests for the same pair:
the shared downloads directory and executor counter, each request's observed
`output_path.exists()` result (`none` until its check step runs), and each
request's response (`none` until its run step completes).  Both yt-dlp runs
are assumed to succeed. -/
structure RaceState where
  files : Finset String
  execCount : Nat
  checked1 : Option Bool
  checked2 : Option Bool
  resp1 : Option DlResp
  resp2 : Option DlResp
deriving DecidableEq

/-- Atomic steps of the two interleaved requests: request i's existence
check (line 109) and its subsequent download-and-respond (lines 117-140). -/
inductive RaceStep where
  | check1 | run1 | check2 | run2
deriving DecidableEq

/-- Initial race state over a given downloads directory. -/
def raceInit (files : Finset String) : RaceState :=
  ⟨files, 0, none, none, none, none⟩

/-- Small-step semantics of the interleaving.  A run step before its own
check step is a no-op (such schedules do not arise).  A run step that
observed a hit responds immediately; one that observed a miss invokes
yt-dlp (incrementing `execCount`), writes the output file, and responds. -/
def raceStep (video_id format : String) (st : RaceState) : RaceStep → RaceState
  | .check1 =>
    { st with checked1 := some (decide (outputFilename video_id format ∈ st.files)) }
  | .check2 =>
    { st with checked2 := some (decide (outputFilename video_id format ∈ st.files)) }
  | .run1 =>
    match st.checked1 with
    | none => st
    | some true =>
      { st with resp1 := some (.ready (outputFilename video_id format)
          (downloadUrl (outputFilename video_id format))) }
    | some false =>
      { st with
        execCount := st.execCount + 1,
        files := insert (outputFilename video_id format) st.files,
        resp1 := some (.ready (outputFilename video_id format)
          (downloadUrl (outputFilename video_id format))) }
  | .run2 =>
    match st.checked2 with
    | none => st
    | some true =>
      { st with resp2 := some (.ready (outputFilename video_id format)
          (downloadUrl (outputFilename video_id format))) }
    | some false =>
      { st with
        execCount := st.execCount + 1,
        files := insert (outputFilename video_id format) st.files,
        resp2 := some (.ready (outputFilename video_id format)
          (downloadUrl (outputFilename video_id format))) }

/-- Execute a schedule (an interleaving) of the two requests' steps. -/
def raceRun (video_id format : String) (files : Finset String)
    (sched : List RaceStep) : RaceState :=
  sched.foldl (raceStep video_id format) (raceInit files)

/-! ### Lifecycle model: streaming reads vs. delayed deletion

`get_file` returns a `FileResponse` that streams the file for some duration,
while each `cleanup_file` task fires independently after its delay.  The
events below are the file-lifecycle actions of `src/api/main.py`; `streams`
records the filenames with an in-progress `FileResponse` (the spec's busy
consumers). -/

/-- File-lifecycle events: a successful download writes the output file
(`src/api/main.py:130-131`); `get_file` begins streaming an existing file
(lines 146-158); a response stream completes; a `cleanup_file` timer fires
(lines 190-197). -/
inductive LifeEvent where
  | commit (filename : String)
  | getStart (filename : String)
  | getEnd (filename : String)
  | cleanupFire (filename : String)
deriving DecidableEq

/-- The downloads directory plus the multiset (as a list) of filenames with
an in-progress `FileResponse` stream. -/
structure StoreState where
  files : Finset String
  streams : List String
deriving DecidableEq

/-- Empty downloads directory, no streams in progress. -/
def storeInit : StoreState := ⟨∅, []⟩

/-- Effect of each lifecycle event, read off `src/api/main.py`: a commit
writes the file; `get_file` on an existing file starts a stream (on a
missing file it returns 404 and starts nothing); a finished stream is
removed; a firing `cleanup_file` deletes the file exactly when it exists,
consulting nothing else. -/
def lifeStep (st : StoreState) : LifeEvent → StoreState
  | .commit f => { st with files := insert f st.files }
  | .getStart f =>
    if f ∈ st.files then { st with streams := f :: st.streams } else st
  | .getEnd f => { st with streams := st.streams.erase f }
  | .cleanupFire f => { st with files := cleanup_file st.files f }

/-- Run a sequence of lifecycle events. -/
def lifeRun (st : StoreState) (tr : List LifeEvent) : StoreState :=
  tr.foldl lifeStep st

/-- The spec's busy count for a filename: the number of consumers currently
streaming it. -/
def busyCount (st : StoreState) (f : String) : Nat := st.streams.count f

/-- Run a timestamped trace (timestamps are annotations used by the spec's
last-access clock; the code's transitions ignore them). -/
def lifeRunT (tr : List (Nat × LifeEvent)) : StoreState :=
  lifeRun storeInit (tr.map Prod.snd)

/-- Modelled from the spec: the last-access time of an artifact — the
latest timestamp at which it was created (`Commit`) or read (`Open`
refreshes last-access); 0 if never touched.  The code keeps no such clock;
this is the spec's notion, computed over a timestamped trace. -/
def lastAccess (tr : List (Nat × LifeEvent)) (f : String) : Nat :=
  tr.foldl
    (fun acc te =>
      match te with
      | (t, .commit g) => if g = f then max acc t else acc
      | (t, .getStart g) => if g = f then max acc t else acc
      | (_, .getEnd _) => acc
      | (_, .cleanupFire _) => acc)
    0

/-- Modelled from the spec: valid inputs to key derivation — a nonempty
content key and a format in the fixed allow-list `{mp3, m4a}`.  The code
performs no such validation; this predicate states the spec's contract. -/
def specValidInput (video_id format : String) : Prop :=
  video_id ≠ "" ∧ (format = "mp3" ∨ format = "m4a")

instance (video_id format : String) : Decidable (specValidInput video_id format) :=
  inferInstanceAs (Decidable (_ ∧ _))

/-- Modelled from the spec: the error-taxonomy kinds a failed fulfillment
must carry. -/
def taxonomyKinds : List String :=
  ["SourceUnavailable", "UnsupportedFormat", "TranscodeFailed", "Timeout"]

/-- Modelled from the spec: does a `/download` response carry one of the
spec's taxonomy kinds as its structured error payload? -/
def specCarriesKind : DlResp → Bool
  | .httpError _ d => taxonomyKinds.contains d
  | .ready _ _ => false

theorem leBytes_length (n x : Nat) : (leBytes n x).length = n := by
  induction n generalizing x with
  | zero => rfl
  | succ k ih => simp [leBytes, ih]

theorem md5Digest_length (msg : List Nat) : (md5Digest msg).length = 16 := by
  unfold md5Digest
  rcases md5Chunks (0x67452301, 0xefcdab89, 0x98badcfe, 0x10325476) (md5Pad msg) with ⟨a, b, c, d⟩
  simp [leBytes_length]

theorem hexOfBytes_length (l : List Nat) : (hexOfBytes l).length = 2 * l.length := by
  induction l with
  | nil => rfl
  | cons b t ih => simp [hexOfBytes, hexByte] at ih ⊢; omega

theorem file_hash_length (v : String) : (file_hash v).length = 10 := by
  simp [file_hash, md5HexChars, hexOfBytes_length, md5Digest_length]

/-- Sanity check of the MD5 embedding against the RFC 1321 test suite. -/
theorem md5_rfc_vector_empty : md5HexOfString "" = "d41d8cd98f00b204e9800998ecf8427e" := by
  decide

/-- Sanity check of the MD5 embedding against the RFC 1321 test suite. -/
theorem md5_rfc_vector_abc : md5HexOfString "abc" = "900150983cd24fb0d6963f7d28e17f72" := by
  decide

/-- The derived artifact filename for a concrete YouTube video id. -/
theorem outputFilename_concrete : outputFilename "dQw4w9WgXcQ" "mp3" = "1b4237f476.mp3" := by
  decide

/-- `getStart` (a `get_file` read) never changes the set of files on disk. -/
theorem getStart_files (st : StoreState) (f : String) :
    (lifeStep st (.getStart f)).files = st.files := by
  by_cases h : f ∈ st.files <;> simp [lifeStep, h]

/-- Any number of `get_file` reads leaves the downloads directory unchanged. -/
theorem lifeRun_getStart_files (reads : List String) (st : StoreState) :
    (lifeRun st (reads.map LifeEvent.getStart)).files = st.files := by
  induction reads generalizing st with
  | nil => rfl
  | cons r t ih =>
    simp only [List.map_cons]
    show (lifeRun (lifeStep st (.getStart r)) (t.map LifeEvent.getStart)).files = st.files
    rw [ih (lifeStep st (.getStart r)), getStart_files]

/-- C1: under the interleaving in which both requests' `output_path.exists()`
checks (line 109) run before either download, two concurrent `/download`
requests for the pair `("dQw4w9WgXcQ", "mp3")` each invoke `ydl.download`:
the executor runs twice, not once (both callers do receive the same ready
response).  This refutes the single-flight property on the code. -/
theorem c1_two_executor_invocations :
    (raceRun "dQw4w9WgXcQ" "mp3" ∅ [.check1, .check2, .run1, .run2]).execCount = 2 ∧
    (raceRun "dQw4w9WgXcQ" "mp3" ∅ [.check1, .check2, .run1, .run2]).resp1 =
      some (.ready "1b4237f476.mp3" "/download/file/1b4237f476.mp3") ∧
    (raceRun "dQw4w9WgXcQ" "mp3" ∅ [.check1, .check2, .run1, .run2]).resp2 =
      some (.ready "1b4237f476.mp3" "/download/file/1b4237f476.mp3") := by
  decide

/-- C2 (counterexample): an artifact with busy count 1 (a `get_file` stream
in progress) is nevertheless deleted when its `cleanup_file` timer fires. -/
theorem c2_busy_artifact_deleted :
    busyCount (lifeRun storeInit
      [.commit "1b4237f476.mp3", .getStart "1b4237f476.mp3"]) "1b4237f476.mp3" = 1 ∧
    "1b4237f476.mp3" ∈ (lifeRun storeInit
      [.commit "1b4237f476.mp3", .getStart "1b4237f476.mp3"]).files ∧
    "1b4237f476.mp3" ∉ (lifeRun storeInit
      [.commit "1b4237f476.mp3", .getStart "1b4237f476.mp3",
       .cleanupFire "1b4237f476.mp3"]).files := by
  decide

/-- C2 (amended): `cleanup_file` is a no-op when the file is absent, and
deletes the file whenever it exists — irrespective of the busy count, which
the code does not track. -/
theorem c2_cleanup_ignores_busy (st : StoreState) (f : String) :
    (f ∉ st.files → lifeStep st (.cleanupFire f) = st) ∧
    (f ∈ st.files → f ∉ (lifeStep st (.cleanupFire f)).files) := by
  constructor
  · intro h
    simp [lifeStep, cleanup_file, h]
  · intro h
    simp [lifeStep, cleanup_file, h]

/-- C2 (witness): the amended theorem at concrete states — absent file
(no-op) and present, busy file (deleted). -/
theorem c2_cleanup_ignores_busy_witness :
    lifeStep ⟨∅, []⟩ (.cleanupFire "a.mp3") = ⟨∅, []⟩ ∧
    "a.mp3" ∉ (lifeStep ⟨{"a.mp3"}, ["a.mp3"]⟩ (.cleanupFire "a.mp3")).files :=
  ⟨(c2_cleanup_ignores_busy ⟨∅, []⟩ "a.mp3").1 (by simp),
   (c2_cleanup_ignores_busy ⟨{"a.mp3"}, ["a.mp3"]⟩ "a.mp3").2 (by simp)⟩

/-- C3 (counterexample): the artifact is committed at time 0, read at time
3599, and its `cleanup_file` timer (scheduled at commit for delay 3600)
fires at time 3600: the file is deleted although the spec's last-access
clock reads 3599 and 3599 + 3600 > 3600. -/
theorem c3_deleted_despite_recent_access :
    "1b4237f476.mp3" ∈ (lifeRunT
      [(0, .commit "1b4237f476.mp3"), (3599, .getStart "1b4237f476.mp3"),
       (3599, .getEnd "1b4237f476.mp3")]).files ∧
    "1b4237f476.mp3" ∉ (lifeStep (lifeRunT
      [(0, .commit "1b4237f476.mp3"), (3599, .getStart "1b4237f476.mp3"),
       (3599, .getEnd "1b4237f476.mp3")]) (.cleanupFire "1b4237f476.mp3")).files ∧
    ¬ (lastAccess
      [(0, .commit "1b4237f476.mp3"), (3599, .getStart "1b4237f476.mp3"),
       (3599, .getEnd "1b4237f476.mp3")] "1b4237f476.mp3" + 3600 ≤ 3600) := by
  decide

/-- C3 (amended): deletion depends only on existence at the moment the
timer fires — any number of intervening reads leaves the file just as
doomed, since reads refresh no access time. -/
theorem c3_reads_do_not_defer_deletion (st : StoreState) (f : String)
    (reads : List String) (h : f ∈ st.files) :
    f ∉ (lifeStep (lifeRun st (reads.map LifeEvent.getStart))
      (.cleanupFire f)).files := by
  have hf := lifeRun_getStart_files reads st
  simp [lifeStep, cleanup_file, hf, h]

/-- C3 (witness): the amended theorem at a concrete state with two reads. -/
theorem c3_reads_do_not_defer_deletion_witness :
    "a.mp3" ∉ (lifeStep (lifeRun ⟨{"a.mp3"}, []⟩
      (["a.mp3", "a.mp3"].map LifeEvent.getStart)) (.cleanupFire "a.mp3")).files :=
  c3_reads_do_not_defer_deletion ⟨{"a.mp3"}, []⟩ "a.mp3" ["a.mp3", "a.mp3"] (by simp)

/-- C4: a `/download` call with a successful executor returns the ready
response, and a second call for the same `(video_id, format)` — whatever
its executor parameters — returns the identical response and leaves the
state untouched: no second executor invocation. -/
theorem c4_cache_hit (video_id format e1 e2 : String) (ok2 : Bool) (st0 : ApiState) :
    (download_music video_id format true e1 st0).1 =
      .ready (outputFilename video_id format)
        (downloadUrl (outputFilename video_id format)) ∧
    download_music video_id format ok2 e2 (download_music video_id format true e1 st0).2 =
      ((download_music video_id format true e1 st0).1,
       (download_music video_id format true e1 st0).2) := by
  by_cases h : outputFilename video_id format ∈ st0.files
  · constructor
    · simp [download_music, h]
    · simp [download_music, h]
  · constructor
    · simp [download_music, h]
    · simp [download_music, h]

/-- C6 (counterexample): the empty video id with format `"wav"` — invalid
per the spec's contract — is not rejected: the handler invokes yt-dlp
(`execCount` becomes 1) and answers `ready`, not an `InvalidInput` error. -/
theorem c6_invalid_input_not_rejected :
    ¬ specValidInput "" "wav" ∧
    (download_music "" "wav" true "boom" ⟨∅, 0⟩).2.execCount = 1 ∧
    (download_music "" "wav" true "boom" ⟨∅, 0⟩).1 =
      .ready "d41d8cd98f.wav" "/download/file/d41d8cd98f.wav" := by
  refine ⟨by decide, by decide, by decide⟩

/-- C6 (amended): no validation exists — for every video id and format
(empty and non-allow-listed included), when the artifact file is absent the
handler attempts the download. -/
theorem c6_download_always_attempted (video_id format errMsg : String)
    (execOk : Bool) (st : ApiState)
    (h : outputFilename video_id format ∉ st.files) :
    (download_music video_id format execOk errMsg st).2.execCount =
      st.execCount + 1 := by
  cases execOk <;> simp [download_music, h]

/-- C6 (witness): the amended theorem at the invalid input `("", "wav")`. -/
theorem c6_download_always_attempted_witness :
    (download_music "" "wav" true "boom" ⟨∅, 0⟩).2.execCount = 1 :=
  c6_download_always_attempted "" "wav" "boom" true ⟨∅, 0⟩ (by simp)

/-- C7 (counterexample): two distinct pairs with the same cache key: the
video ids `"c02u"` and `"dA68"` have MD5 digests agreeing on their first 10
hex digits (`93188311fe`), so both pairs derive the same filename. -/
theorem c7_distinct_pairs_collide :
    ("c02u", "mp3") ≠ ("dA68", "mp3") ∧
    outputFilename "c02u" "mp3" = outputFilename "dA68" "mp3" := by
  refine ⟨by decide, by decide⟩

/-- C7 (amended): derivation is a pure function (deterministic by
construction), and the format component is recoverable — equal filenames
force equal formats, since the hash prefix has fixed length 10; but
distinct video ids can collide on the truncated hash. -/
theorem c7_equal_keys_equal_formats (v1 f1 v2 f2 : String)
    (h : outputFilename v1 f1 = outputFilename v2 f2) : f1 = f2 := by
  unfold outputFilename at h
  have hdata : file_hash v1 ++ '.' :: f1.data = file_hash v2 ++ '.' :: f2.data :=
    congrArg String.data h
  have hlen : (file_hash v1).length = (file_hash v2).length := by
    rw [file_hash_length, file_hash_length]
  have htail := (List.append_inj hdata hlen).2
  have hfd : f1.data = f2.data := by
    injection htail
  cases f1; cases f2; exact congrArg String.mk (by simpa using hfd)

/-- C7 (witness): the amended theorem applied to a concrete equality. -/
theorem c7_equal_keys_equal_formats_witness : "mp3" = "mp3" :=
  c7_equal_keys_equal_formats "c02u" "mp3" "c02u" "mp3" rfl

/-- C8 (counterexample): a yt-dlp failure with message
`"HTTP Error 403: Forbidden"` is returned as a plain HTTP 500 whose detail
is the raw message; the response names none of the spec's taxonomy kinds. -/
theorem c8_no_taxonomy_classification :
    (download_music "dQw4w9WgXcQ" "mp3" false "HTTP Error 403: Forbidden" ⟨∅, 0⟩).1 =
      .httpError 500 "HTTP Error 403: Forbidden" ∧
    specCarriesKind
      (download_music "dQw4w9WgXcQ" "mp3" false "HTTP Error 403: Forbidden" ⟨∅, 0⟩).1 =
      false := by
  refine ⟨by decide, by decide⟩

/-- C8 (amended): every executor failure is forwarded to the caller,
verbatim and unclassified, as `HTTPException(500, str(e))`; no failure is
swallowed into a success response. -/
theorem c8_error_forwarded_verbatim (video_id format errMsg : String)
    (st : ApiState) (h : outputFilename video_id format ∉ st.files) :
    (download_music video_id format false errMsg st).1 =
      .httpError 500 errMsg := by
  simp [download_music, h]

/-- C8 (witness): the amended theorem at a concrete failing request. -/
theorem c8_error_forwarded_verbatim_witness :
    (download_music "x" "mp3" false "boom" ⟨∅, 0⟩).1 = .httpError 500 "boom" :=
  c8_error_forwarded_verbatim "x" "mp3" "boom" ⟨∅, 0⟩ (by simp)

/-- C9 (counterexample): `get_file` serves an existing file by a direct
`FileResponse`, and the stream confers no protection: with the stream still
open (busy count 1), a firing `cleanup_file` timer removes the file. -/
theorem c9_stream_confers_no_protection :
    get_file {"93188311fe.m4a"} "93188311fe.m4a" =
      .fileResponse "93188311fe.m4a" "audio/mpeg" "93188311fe.m4a" ∧
    busyCount (lifeRun storeInit
      [.commit "93188311fe.m4a", .getStart "93188311fe.m4a",
       .cleanupFire "93188311fe.m4a"]) "93188311fe.m4a" = 1 ∧
    "93188311fe.m4a" ∉ (lifeRun storeInit
      [.commit "93188311fe.m4a", .getStart "93188311fe.m4a",
       .cleanupFire "93188311fe.m4a"]).files := by
  decide

/-- C9 (amended): `get_file` answers 404 exactly when the file is absent,
and otherwise serves it via a direct `FileResponse` read of the path. -/
theorem c9_notfound_iff_absent (files : Finset String) (filename : String) :
    (filename ∉ files → get_file files filename = .notFound 404 "File not found") ∧
    (filename ∈ files →
      get_file files filename = .fileResponse filename "audio/mpeg" filename) := by
  constructor
  · intro h
    simp [get_file, h]
  · intro h
    simp [get_file, h]

/-- C9 (witness): the amended theorem at an absent and at a present file. -/
theorem c9_notfound_iff_absent_witness :
    get_file ∅ "a.mp3" = .notFound 404 "File not found" ∧
    get_file {"a.mp3"} "a.mp3" = .fileResponse "a.mp3" "audio/mpeg" "a.mp3" :=
  ⟨(c9_notfound_iff_absent ∅ "a.mp3").1 (by simp),
   (c9_notfound_iff_absent {"a.mp3"} "a.mp3").2 (by simp)⟩

/-- C10: whenever the requested file exists, the response's media type is
`"audio/mpeg"`, whatever the filename and hence whatever the artifact's
actual format. -/
theorem c10_media_type_always_mpeg (files : Finset String) (filename : String)
    (h : filename ∈ files) :
    mediaTypeOf (get_file files filename) = some "audio/mpeg" := by
  simp [get_file, h, mediaTypeOf]

/-- C10 (witness): an m4a artifact is served as `audio/mpeg`. -/
theorem c10_media_type_always_mpeg_witness :
    mediaTypeOf (get_file {"93188311fe.m4a"} "93188311fe.m4a") =
      some "audio/mpeg" :=
  c10_media_type_always_mpeg {"93188311fe.m4a"} "93188311fe.m4a" (by simp)

end Ramzify
